import Mathlib

/-!
Verification of the confidante XMPP inbound engine against its specification.

The definitions below are a shallow embedding of the Rust sources:
`confidante-core/src/xml.rs` (element model), `confidante-core/src/xml/namespaces.rs`,
`confidante-core/src/xml/stream_writer.rs`, `confidante-inbound/src/starttls.rs`,
`confidante-inbound/src/sasl.rs`, `confidante-inbound/src/sasl/scram.rs`,
`confidante-inbound/src/bind.rs` and `confidante-inbound/src/lib.rs`.
Asynchronous effects (writes to the stream, the TLS upgrade, fresh randomness,
fresh UUIDs) are made explicit: written elements are collected in lists, and
fresh random bytes or resource strings are passed as parameters.
-/

namespace Namespaces

/-- `namespaces.rs`: the XML 1998 namespace. -/
def XML : String := "http://www.w3.org/XML/1998/namespace"

/-- `namespaces.rs`: the xmlns namespace. -/
def XMLNS : String := "http://www.w3.org/2000/xmlns/"

def XMPP_STREAMS : String := "http://etherx.jabber.org/streams"

def XMPP_CLIENT : String := "jabber:client"

def XMPP_SERVER : String := "jabber:server"

def XMPP_SASL : String := "urn:ietf:params:xml:ns:xmpp-sasl"

def XMPP_STREAM_ERRORS : String := "urn:ietf:params:xml:ns:xmpp-streams"

def XMPP_BIND : String := "urn:ietf:params:xml:ns:xmpp-bind"

def XMPP_STARTTLS : String := "urn:ietf:params:xml:ns:xmpp-tls"

end Namespaces

/-- `xml.rs` `Node`: one child node of an element.  The `elem` constructor
inlines the four fields of `Element` so the type is a single nested
inductive. -/
inductive XNode where
  | elem (name : String) (ns : Option String)
      (attributes : List ((String × Option String) × String)) (children : List XNode)
  | text (s : String)
  | cdata (s : String)
  | comment (s : String)
  | procInst (s : String)
deriving Repr

/-- `xml.rs` `Element`: `(name, optional namespace, attributes, ordered children)`.
The Rust `HashMap` of attributes is modelled as an association list with
overwrite-on-insert; lookups never depend on the order. -/
structure Element where
  name : String
  ns : Option String
  attributes : List ((String × Option String) × String)
  children : List XNode
deriving Repr

/-- `Element::new`. -/
def Element.new (name : String) (ns : Option String) : Element :=
  ⟨name, ns, [], []⟩

/-- `Element::validate`: name and namespace both match. -/
def Element.validate (e : Element) (name : String) (ns : Option String) : Bool :=
  e.name == name && e.ns == ns

/-- Insert with overwrite, the `HashMap::insert` semantics. -/
def insertAttr (attrs : List ((String × Option String) × String))
    (key : String × Option String) (value : String) :
    List ((String × Option String) × String) :=
  match attrs with
  | [] => [(key, value)]
  | (k, v) :: rest =>
    if k = key then (key, value) :: rest else (k, v) :: insertAttr rest key value

/-- `Element::set_attribute`. -/
def Element.setAttribute (e : Element) (name : String) (ns : Option String)
    (value : String) : Element :=
  { e with attributes := insertAttr e.attributes (name, ns) value }

/-- `Element::attribute` (named `getAttribute` because `attribute` is a Lean
keyword): `HashMap::get` on the `(name, namespace)` key. -/
def Element.getAttribute (e : Element) (name : String) (ns : Option String) :
    Option String :=
  e.attributes.lookup (name, ns)

/-- `Element::find_child`: first child element with the given name and
namespace. -/
def Element.findChild (e : Element) (name : String) (ns : Option String) :
    Option Element :=
  e.children.findSome? fun child =>
    match child with
    | .elem n nsp a c =>
      if n = name ∧ nsp = ns then some ⟨n, nsp, a, c⟩ else none
    | _ => none

mutual

/-- `Element::text` on a node: concatenated `Text` and `CData` content,
recursive through nested elements, skipping comments and PIs. -/
def XNode.nodeText : XNode → String
  | .elem _ _ _ children => textOfNodes children
  | .text s => s
  | .cdata s => s
  | .comment _ => ""
  | .procInst _ => ""

def textOfNodes : List XNode → String
  | [] => ""
  | n :: rest => n.nodeText ++ textOfNodes rest

end

/-- `Element::text`. -/
def Element.text (e : Element) : String := textOfNodes e.children

/-- View an `Element` as a child node. -/
def Element.toNode (e : Element) : XNode :=
  .elem e.name e.ns e.attributes e.children

/-- `Element::add_child`. -/
def Element.addChild (e : Element) (child : Element) : Element :=
  { e with children := e.children ++ [child.toNode] }

/-- `Element::add_text`. -/
def Element.addText (e : Element) (t : String) : Element :=
  { e with children := e.children ++ [.text t] }

/-- `jid.rs` `Jid`: `{local?, domain, resource?}` (the `local` field is named
`localPart` because `local` is a Lean keyword). -/
structure Jid where
  localPart : Option String
  domain : String
  resource : Option String
deriving DecidableEq, Repr

/-- `Jid::bind`: replace the resource. -/
def Jid.bind (j : Jid) (resource : String) : Jid :=
  { j with resource := some resource }

/-- `impl Display for Jid`: `local@domain/resource` with optional parts. -/
def jidToString (j : Jid) : String :=
  (match j.localPart with
   | some l => l ++ "@" ++ j.domain
   | none => j.domain) ++
  (match j.resource with
   | some r => "/" ++ r
   | none => "")

/-- `stream_parser.rs` `Frame`: a stream start or a top-level fragment.
The stream-header payload is irrelevant to the claims below. -/
inductive Frame where
  | streamStart
  | xmlFragment (e : Element)

/-! ### Base64

Standard base64 (RFC 4648) with padding, modelling the behaviour of the
`base64` crate's `BASE64_STANDARD` engine used throughout the sources.
Bytes are `Nat` values below 256. -/

/-- The standard alphabet: value `n < 64` to character. -/
def base64Char (n : Nat) : Char :=
  if n < 26 then Char.ofNat (65 + n)
  else if n < 52 then Char.ofNat (97 + (n - 26))
  else if n < 62 then Char.ofNat (48 + (n - 52))
  else if n = 62 then '+'
  else '/'

/-- Inverse of the alphabet; `none` for characters outside it (including `=`). -/
def base64DecodeChar (c : Char) : Option Nat :=
  if 'A' ≤ c ∧ c ≤ 'Z' then some (c.toNat - 65)
  else if 'a' ≤ c ∧ c ≤ 'z' then some (c.toNat - 97 + 26)
  else if '0' ≤ c ∧ c ≤ '9' then some (c.toNat - 48 + 52)
  else if c = '+' then some 62
  else if c = '/' then some 63
  else none

/-- Encode bytes in groups of three, padding the final group with `=`. -/
def base64EncodeChars : List Nat → List Char
  | [] => []
  | [b1] => [base64Char (b1 / 4), base64Char (b1 % 4 * 16), '=', '=']
  | [b1, b2] =>
    [base64Char (b1 / 4), base64Char (b1 % 4 * 16 + b2 / 16),
     base64Char (b2 % 16 * 4), '=']
  | b1 :: b2 :: b3 :: rest =>
    base64Char (b1 / 4) :: base64Char (b1 % 4 * 16 + b2 / 16) ::
      base64Char (b2 % 16 * 4 + b3 / 64) :: base64Char (b3 % 64) ::
        base64EncodeChars rest

def base64Encode (l : List Nat) : String :=
  ⟨base64EncodeChars l⟩

/-- Decode in groups of four characters; padding is accepted only in the last
group and non-zero trailing bits are rejected, as in the strict engine. -/
def base64DecodeGroups : List Char → Option (List Nat)
  | [] => some []
  | c1 :: c2 :: c3 :: c4 :: rest =>
    match base64DecodeChar c1 with
    | none => none
    | some v1 =>
      match base64DecodeChar c2 with
      | none => none
      | some v2 =>
        if c3 = '=' then
          if rest = [] ∧ c4 = '=' ∧ v2 % 16 = 0 then some [v1 * 4 + v2 / 16] else none
        else
          match base64DecodeChar c3 with
          | none => none
          | some v3 =>
            if c4 = '=' then
              if rest = [] ∧ v3 % 4 = 0 then
                some [v1 * 4 + v2 / 16, v2 % 16 * 16 + v3 / 4]
              else none
            else
              match base64DecodeChar c4 with
              | none => none
              | some v4 =>
                match base64DecodeGroups rest with
                | none => none
                | some tail =>
                  some ((v1 * 4 + v2 / 16) :: (v2 % 16 * 16 + v3 / 4) ::
                    (v3 % 4 * 64 + v4) :: tail)
  | _ => none

def base64Decode (s : String) : Option (List Nat) :=
  base64DecodeGroups s.data

/-! ### Stored SCRAM passwords (`sasl/scram.rs`) -/

/-- `scram.rs` line 35: the configured iteration count. -/
def SCRAM_ITERATIONS : Nat := 4096

/-- The two digests the SCRAM family is instantiated with. -/
inductive ScramDigest where
  | sha1
  | sha256
deriving DecidableEq, Repr

/-- `MechanismDigest::mechanism_name` for both digest impls. -/
def mechanism_name : ScramDigest → Bool → String
  | .sha1, true => "SCRAM-SHA-1-PLUS"
  | .sha1, false => "SCRAM-SHA-1"
  | .sha256, true => "SCRAM-SHA-256-PLUS"
  | .sha256, false => "SCRAM-SHA-256"

/-- `StoredPasswordScram<D>`: `iterations` is the `NonZero<u32>` value, the
three byte vectors are `Vec<u8>`. The phantom digest parameter has no field. -/
structure StoredPasswordScram where
  iterations : Nat
  salt : List Nat
  stored_key : List Nat
  server_key : List Nat
deriving DecidableEq, Repr

/-- Accumulate decimal digits; `none` on a non-digit. -/
def parseDecDigitsAux : List Char → Nat → Option Nat
  | [], acc => some acc
  | c :: rest, acc =>
    if c.isDigit then parseDecDigitsAux rest (acc * 10 + (c.toNat - 48)) else none

/-- `str::parse::<NonZero<u32>>`: optional leading `+`, decimal digits,
rejecting zero and values above `u32::MAX`. -/
def parseNonZeroU32 (s : String) : Option Nat :=
  let cs := match s.data with
    | '+' :: rest => rest
    | l => l
  match cs with
  | [] => none
  | _ =>
    match parseDecDigitsAux cs 0 with
    | some v => if v = 0 ∨ 4294967295 < v then none else some v
    | none => none

/-- `str::split('$')` on characters: `n` separators give `n + 1` pieces. -/
def splitDollarChars : List Char → List (List Char)
  | [] => [[]]
  | c :: rest =>
    if c = '$' then [] :: splitDollarChars rest
    else
      match splitDollarChars rest with
      | [] => [[c]]
      | p :: ps => (c :: p) :: ps

def splitDollar (s : String) : List String :=
  (splitDollarChars s.data).map fun l => String.mk l

/-- The body of `impl FromStr for StoredPasswordScram<D>` after the split:
pattern-matching on a six-element list is the `parts.len() != 6` bail plus
the `parts[2..5]` accesses. -/
def scramParseParts (parts : List String) : Except String StoredPasswordScram :=
  match parts with
  | [_, _, p2, p3, p4, p5] =>
    match parseNonZeroU32 p2 with
    | none => .error "invalid digit found in string"
    | some iterations =>
      match base64Decode p3 with
      | none => .error "invalid base64"
      | some salt =>
        match base64Decode p4 with
        | none => .error "invalid base64"
        | some stored_key =>
          match base64Decode p5 with
          | none => .error "invalid base64"
          | some server_key =>
            if iterations ≠ SCRAM_ITERATIONS then
              .error "SCRAM iteration count outdated. Password must be reset."
            else
              .ok ⟨iterations, salt, stored_key, server_key⟩
  | _ => .error "Invalid SCRAM password format."

/-- `impl FromStr for StoredPasswordScram<D>` (scram.rs lines 73-103).  The
digest parameter mirrors the phantom type parameter `D`; the body never
consults it. -/
def storedPasswordScramFromStr (D : ScramDigest) (s : String) :
    Except String StoredPasswordScram :=
  scramParseParts (splitDollar s)

/-- `impl Display for StoredPasswordScram<D>` (scram.rs lines 105-122):
`$<mech-name>$<iter>$<salt-b64>$<stored-key-b64>$<server-key-b64>`. -/
def storedPasswordScramDisplay (D : ScramDigest) (e : StoredPasswordScram) : String :=
  "$" ++ mechanism_name D false ++ "$" ++ toString e.iterations ++ "$" ++
    base64Encode e.salt ++ "$" ++ base64Encode e.stored_key ++ "$" ++
      base64Encode e.server_key

section Starttls

open Namespaces

/-- The `<proceed xmlns="urn:ietf:params:xml:ns:xmpp-tls"/>` element built in
`StarttlsNegotiator::negotiate_feature`. -/
def starttlsProceedElement : Element :=
  (Element.new "proceed" (some XMPP_STARTTLS)).setAttribute "xmlns" none XMPP_STARTTLS

/-- `starttls.rs` `StarttlsNegotiator::negotiate_feature` (lines 21-40).
Result: the elements written to the stream, whether `upgrade_to_tls` was
called, and the returned `Result`.  The guard is transcribed exactly as in
the source: `if element.validate(...) { bail!("expected starttls element") }`
(note: not negated). -/
def starttls_negotiate_feature (element : Element) :
    List Element × Bool × Except String Unit :=
  if element.validate "starttls" (some XMPP_STARTTLS) then
    ([], false, .error "expected starttls element")
  else
    ([starttlsProceedElement], true, .ok ())

end Starttls

section Sasl

open Namespaces

/-- `sasl.rs` `Mechanism`. -/
inductive Mechanism where
  | external
  | plain
  | scramSha1
  | scramSha1Plus
  | scramSha256
  | scramSha256Plus
deriving DecidableEq, Repr

/-- `sasl.rs` `SaslError`. -/
inductive SaslError where
  | unsupportedMechanism (name : String)
deriving DecidableEq, Repr

/-- `impl TryFrom<&str> for Mechanism` (sasl.rs lines 208-219). -/
def mechanismTryFrom (value : String) : Except SaslError Mechanism :=
  match value with
  | "EXTERNAL" => .ok .external
  | "PLAIN" => .ok .plain
  | "SCRAM-SHA-1" => .ok .scramSha1
  | _ => .error (.unsupportedMechanism value)

/-- Outcome of the mechanism-resolution step of
`SaslNegotiator::negotiate_feature` (sasl.rs lines 99-102). -/
inductive MechanismResolution where
  | resolved (m : Mechanism)
  | bailed (msg : String)
  | panicked
deriving DecidableEq, Repr

/-- sasl.rs lines 99-102: read the `mechanism` attribute; on a name
`TryFrom` rejects, the `.unwrap()` aborts the task (a panic, not a returned
error); a missing attribute is a returned `bail!`. -/
def resolve_mechanism (element : Element) : MechanismResolution :=
  match element.getAttribute "mechanism" none with
  | some mechanism =>
    match mechanismTryFrom mechanism with
    | .ok m => .resolved m
    | .error _ => .panicked
  | none => .bailed "auth element is missing mechanism attribute"

/-- `SaslNegotiator::mechanism_available` (sasl.rs lines 152-161). -/
def mechanism_available (mechanism : Mechanism) (secure authenticated : Bool) : Bool :=
  match mechanism with
  | .external => secure && authenticated
  | .plain => secure
  | .scramSha1 => true
  | .scramSha1Plus => true
  | .scramSha256 => true
  | .scramSha256Plus => true

/-- `sasl.rs` `MechanismNegotiatorResult`. -/
inductive MechanismNegotiatorResult where
  | challenge (bytes : List Nat)
  | success (jid : Jid) (additionalData : Option (List Nat))
  | failure (err : String)

/-- The `<challenge>` element written in the loop. -/
def challengeElement (challenge : List Nat) : Element :=
  (((Element.new "challenge" (some XMPP_SASL)).setAttribute "xmlns" none
    XMPP_SASL).addText (base64Encode challenge))

/-- The `<success>` element written in the loop. -/
def successElement (additionalData : Option (List Nat)) : Element :=
  let xml := (Element.new "success" (some XMPP_SASL)).setAttribute "xmlns" none XMPP_SASL
  match additionalData with
  | some d => xml.addText (base64Encode d)
  | none => xml

/-- The `<failure><not-authorized/></failure>` element written in the loop. -/
def failureNotAuthorizedElement : Element :=
  (((Element.new "failure" (some XMPP_SASL)).setAttribute "xmlns" none
    XMPP_SASL).addChild (Element.new "not-authorized" (some XMPP_SASL)))

/-- A `{urn:ietf:params:xml:ns:xmpp-sasl}response` fragment from the peer. -/
def responseFrame : Frame :=
  .xmlFragment (Element.new "response" (some XMPP_SASL))

/-- A `{urn:ietf:params:xml:ns:xmpp-sasl}abort` element from the peer. -/
def abortElement : Element :=
  Element.new "abort" (some XMPP_SASL)

/-- Outcome of the SASL negotiation loop. -/
inductive SaslLoopOutcome where
  | ok (jid : Jid)
  | fail (msg : String)
  | scriptEnded

/-- Lines 138-148 of sasl.rs: read the next fragment; a `<response>`
continues the loop, an `<abort>` and anything else bail. -/
def saslAwaitResponse (written : Element)
    (continueLoop : List Frame → List Element × SaslLoopOutcome)
    (frames : List Frame) : List Element × SaslLoopOutcome :=
  match frames with
  | Frame.xmlFragment response :: rest =>
    if response.validate "response" (some XMPP_SASL) then
      let p := continueLoop rest
      (written :: p.1, p.2)
    else if response.validate "abort" (some XMPP_SASL) then
      ([written], .fail "authentication aborted")
    else
      ([written], .fail "unexpected element")
  | _ => ([written], .fail "expected xml fragment")

/-- The loop of `SaslNegotiator::negotiate_feature` (sasl.rs lines 107-149).
The mechanism negotiator is scripted by the list of results it returns on
successive `process` calls, and the peer by the list of frames the reader
yields after each write; the payload text of a `<response>` feeds the next
scripted result.  Returns the elements written to the stream and how the
function returned (`scriptEnded` is the model artifact for an exhausted
script). -/
def sasl_negotiate_loop :
    List MechanismNegotiatorResult → List Frame → List Element × SaslLoopOutcome
  | [], _ => ([], .scriptEnded)
  | result :: results, frames =>
    match result with
    | .success jid additionalData => ([successElement additionalData], .ok jid)
    | .challenge challenge =>
      saslAwaitResponse (challengeElement challenge)
        (sasl_negotiate_loop results) frames
    | .failure _ =>
      saslAwaitResponse failureNotAuthorizedElement
        (sasl_negotiate_loop results) frames

end Sasl

section Bind

open Namespaces

/-- The `<iq type="result">` reply built in
`ResourceBindingNegotiator::negotiate_feature` (bind.rs lines 60-68). -/
def bindResponseElement (request_id : String) (bound_entity : Jid) : Element :=
  let jidChild := (Element.new "jid" none).addText (jidToString bound_entity)
  let bindChild :=
    (((Element.new "bind" (some XMPP_BIND)).setAttribute "xmlns" none
      XMPP_BIND).addChild jidChild)
  ((((Element.new "iq" none).setAttribute "id" none request_id).setAttribute
    "type" none "result").addChild bindChild)

/-- `ResourceBindingNegotiator::negotiate_feature` (bind.rs lines 24-73).
The fresh UUID for a request without `<resource>` is the `freshUuid`
parameter.  Returns the reply written to the stream and the bound JID.  The
guard is transcribed exactly as in the source:
`if element.validate("iq", ...) { bail!("expected IQ stanza") }` (note: not
negated). -/
def bind_negotiate_feature (element : Element) (entity : Option Jid)
    (freshUuid : String) : Except String (Element × Jid) :=
  if element.validate "iq" (some XMPP_CLIENT) then .error "expected IQ stanza"
  else if element.getAttribute "type" none ≠ some "set" then
    .error "IQ stanza is not of type set"
  else
    match element.getAttribute "id" none with
    | none => .error "IQ stanza does not have an id"
    | some request_id =>
      match element.findChild "bind" (some XMPP_BIND) with
      | none => .error "IQ stanza does not contain a bind request"
      | some bind_request =>
        let resource :=
          match bind_request.findChild "resource" (some XMPP_BIND) with
          | some requested_resource => requested_resource.text
          | none => freshUuid
        match entity with
        | none => .error "entity to bind is unknown"
        | some entity =>
          let bound_entity := entity.bind resource
          .ok (bindResponseElement request_id bound_entity, bound_entity)

end Bind

section Features

/-- `lib.rs` `ConnectionType`. -/
inductive ConnectionType where
  | client
  | server
deriving DecidableEq, Repr

/-- `lib.rs` `StreamFeatures`. -/
inductive StreamFeatures where
  | tls
  | authentication
  | resourceBinding
deriving DecidableEq, Repr

/-- `InboundStream::negotiable_features` (lib.rs lines 164-188): a pure
function of the starttls flag, the tls-required setting, the set of already
negotiated features and the connection type. -/
def negotiable_features (starttls_allowed tls_required : Bool)
    (features : List StreamFeatures) (connection_type : Option ConnectionType) :
    List StreamFeatures :=
  (if starttls_allowed && !features.contains .tls then [StreamFeatures.tls] else []) ++
  (if (!tls_required || features.contains .tls) && !features.contains .authentication then
    [StreamFeatures.authentication] else []) ++
  (if connection_type == some .client && features.contains .authentication &&
      !features.contains .resourceBinding then
    [StreamFeatures.resourceBinding] else [])

end Features

section Writer

open Namespaces

/-- The writer's stack of namespace-URI → prefix maps; the head is the
innermost frame (`Vec` push/`iter().rev()` in the source). -/
abbrev NsStack := List (List (String × String))

/-- `StreamWriter::new`: stack pre-seeded with the two reserved bindings. -/
def initialNamespaces : NsStack :=
  [[(XML, "xml"), (XMLNS, "xmlns")]]

/-- `StreamWriter::lookup_namespace_prefix`: walk the stack innermost-first. -/
def lookupNamespaceBinding (stack : NsStack) (namespaceUri : String) : Option String :=
  match stack with
  | [] => none
  | frame :: rest =>
    match frame.lookup namespaceUri with
    | some p => some p
    | none => lookupNamespaceBinding rest namespaceUri

/-- Insert with overwrite into one namespace frame (`HashMap::insert`). -/
def insertBinding (frame : List (String × String)) (namespaceUri pfx : String) :
    List (String × String) :=
  match frame with
  | [] => [(namespaceUri, pfx)]
  | (k, v) :: rest =>
    if k = namespaceUri then (namespaceUri, pfx) :: rest
    else (k, v) :: insertBinding rest namespaceUri pfx

/-- stream_writer.rs lines 141-155: scan attributes for `xmlns` and
`xmlns:p` declarations, building the frame pushed for this element. -/
def collectNamespaceDecls
    (attrs : List ((String × Option String) × String)) : List (String × String) :=
  attrs.foldl
    (fun acc kv =>
      match kv with
      | ((attr, some nsUri), value) =>
        if nsUri = XMLNS then insertBinding acc value attr else acc
      | ((attr, none), value) =>
        if attr = "xmlns" then insertBinding acc value "" else acc)
    []

/-- `StreamWriter::build_attributes` (lines 201-224).  The two
`debug_assert!(false, ...)` branches are no-ops in release builds and emit
nothing. -/
def build_attributes (stack : NsStack) (e : Element) : String :=
  e.attributes.foldl
    (fun xml kv =>
      match kv with
      | ((attr, some nsUri), value) =>
        match lookupNamespaceBinding stack nsUri with
        | some "" => xml
        | some p => xml ++ " " ++ p ++ ":" ++ attr ++ "=\"" ++ value ++ "\""
        | none => xml
      | ((attr, none), value) => xml ++ " " ++ attr ++ "=\"" ++ value ++ "\"")
    ""

/-- `StreamWriter::build_opening_tag` (lines 137-199).  The
`debug_assert!(false, "namespace not declared")` branch is a no-op in
release builds: nothing is appended for an unresolvable namespace. -/
def build_opening_tag_core (stack : NsStack) (name : String) (ns : Option String)
    (attributes : List ((String × Option String) × String)) (self_closing : Bool) :
    String × NsStack :=
  let stackPushed := collectNamespaceDecls attributes :: stack
  let e : Element := ⟨name, ns, attributes, []⟩
  let xml :=
    match ns with
    | some nsUri =>
      match lookupNamespaceBinding stackPushed nsUri with
      | some "" => "<" ++ name ++ build_attributes stackPushed e
      | some p => "<" ++ p ++ ":" ++ name ++ build_attributes stackPushed e
      | none => ""
    | none => "<" ++ name ++ build_attributes stackPushed e
  if self_closing then (xml ++ "/>", stack) else (xml ++ ">", stackPushed)

def build_opening_tag (stack : NsStack) (e : Element) (self_closing : Bool) :
    String × NsStack :=
  build_opening_tag_core stack e.name e.ns e.attributes self_closing

/-- `StreamWriter::build_closing_tag` (lines 252-277); the unresolvable
namespace again emits nothing in release builds.  Pops the frame. -/
def build_closing_tag_core (stack : NsStack) (name : String) (ns : Option String) :
    String × NsStack :=
  let xml :=
    match ns with
    | some nsUri =>
      match lookupNamespaceBinding stack nsUri with
      | some "" => "</" ++ name ++ ">"
      | some p => "</" ++ p ++ ":" ++ name ++ ">"
      | none => ""
    | none => "</" ++ name ++ ">"
  (xml, stack.tail)

def build_closing_tag (stack : NsStack) (e : Element) : String × NsStack :=
  build_closing_tag_core stack e.name e.ns

mutual

/-- `StreamWriter::build_xml_element` on one node (lines 123-135 together
with `build_children`, lines 226-250). -/
def build_node (stack : NsStack) (n : XNode) : String × NsStack :=
  match n with
  | .elem name ns attrs children =>
    if children.isEmpty then
      build_opening_tag_core stack name ns attrs true
    else
      let opening := build_opening_tag_core stack name ns attrs false
      let childrenOut := build_children opening.2 children
      let closing := build_closing_tag_core childrenOut.2 name ns
      (opening.1 ++ childrenOut.1 ++ closing.1, closing.2)
  | .text s => (s, stack)
  | .cdata s => ("<![CDATA[" ++ s ++ "]]>", stack)
  | .comment s => ("<!--" ++ s ++ "-->", stack)
  | .procInst s => ("<?" ++ s ++ "?>", stack)

def build_children (stack : NsStack) (nodes : List XNode) : String × NsStack :=
  match nodes with
  | [] => ("", stack)
  | n :: rest =>
    let first := build_node stack n
    let others := build_children first.2 rest
    (first.1 ++ others.1, others.2)

end

/-- `StreamWriter::build_xml_element`. -/
def build_xml_element (stack : NsStack) (e : Element) : String × NsStack :=
  build_node stack e.toNode

/-- `stream_header.rs` `StreamHeader`; `StreamId` and `LanguageTag` wrap
strings. -/
structure StreamHeader where
  «from» : Option Jid
  «to» : Option Jid
  id : Option String
  language : Option String

/-- The `stream_element` built in `StreamWriter::write_stream_header`
(lines 50-72): attributes `from`, the freshly generated `id`, `version`,
`xml:lang`, the default namespace and the `stream` prefix binding, inserted
into the map in source order. -/
def streamHeaderElement (f : Jid) (freshIdBytes : List Nat) : Element :=
  let id_encoded := base64Encode freshIdBytes
  let header_attributes :=
    insertAttr (insertAttr (insertAttr (insertAttr (insertAttr (insertAttr []
      ("from", none) (jidToString f))
      ("id", none) id_encoded)
      ("version", none) "1.0")
      ("lang", some XML) "en")
      ("xmlns", none) XMPP_CLIENT)
      ("stream", some XMLNS) XMPP_STREAMS
  { name := "stream", ns := some XMPP_STREAMS,
    attributes := header_attributes, children := [] }

/-- `StreamWriter::write_stream_header` (lines 32-76).  The 16 fresh bytes
the `ChaCha20Rng` produces are the `freshIdBytes` parameter; the function
bails when `from` is unset and otherwise emits the opening tag built from
`streamHeaderElement`, which is returned here. -/
def write_stream_header (header : StreamHeader) (freshIdBytes : List Nat) :
    Except String Element :=
  match header.«from» with
  | none => .error "`from` field is required in outgoing stream header"
  | some f => .ok (streamHeaderElement f freshIdBytes)

end Writer

section ConcreteInputs

open Namespaces

/-- The element a peer's `<starttls xmlns="urn:ietf:params:xml:ns:xmpp-tls"/>`
parses to. -/
def peerStarttlsElement : Element :=
  (Element.new "starttls" (some XMPP_STARTTLS)).setAttribute "xmlns" none XMPP_STARTTLS

/-- A fragment that is not a starttls element. -/
def nonStarttlsElement : Element :=
  Element.new "message" (some XMPP_CLIENT)

/-- An `<auth xmlns="urn:ietf:params:xml:ns:xmpp-sasl" mechanism="…"/>`
element with the given mechanism attribute. -/
def authElementWithMechanism (m : String) : Element :=
  (((Element.new "auth" (some XMPP_SASL)).setAttribute "xmlns" none
    XMPP_SASL).setAttribute "mechanism" none m)

/-- An authenticated peer entity for the binding examples. -/
def exampleUser : Jid :=
  ⟨some "user", "localhost", none⟩

/-- A well-formed `{jabber:client}iq` resource-binding request:
`<iq xmlns="jabber:client" type="set" id="bind-1">
  <bind xmlns="urn:ietf:params:xml:ns:xmpp-bind"/></iq>`. -/
def validBindIq : Element :=
  ((((Element.new "iq" (some XMPP_CLIENT)).setAttribute "type" none
    "set").setAttribute "id" none "bind-1").addChild
      ((Element.new "bind" (some XMPP_BIND)).setAttribute "xmlns" none XMPP_BIND))

/-- The same attributes and child on an element that is not a
`{jabber:client}iq` at all. -/
def nonIqBindRequest : Element :=
  ((((Element.new "foo" none).setAttribute "type" none
    "set").setAttribute "id" none "bind-1").addChild
      ((Element.new "bind" (some XMPP_BIND)).setAttribute "xmlns" none XMPP_BIND))

/-- An element whose namespace no frame of a fresh writer declares. -/
def undeclaredNsElement : Element :=
  Element.new "features" (some "urn:example:undeclared")

/-- The same element carrying the `xmlns` declaration for its namespace. -/
def declaredNsElement : Element :=
  (Element.new "features" (some "urn:example:undeclared")).setAttribute "xmlns"
    none "urn:example:undeclared"

end ConcreteInputs


/-! ## Helper lemmas -/

theorem base64DecodeChar_base64Char : ∀ n < 64, base64DecodeChar (base64Char n) = some n := by
  decide

theorem base64Char_ne_pad : ∀ n < 64, base64Char n ≠ '=' := by
  decide

theorem base64Char_ne_dollar : ∀ n < 64, base64Char n ≠ '$' := by
  decide

theorem base64DecodeGroups_encode : ∀ (l : List Nat), (∀ b ∈ l, b < 256) →
    base64DecodeGroups (base64EncodeChars l) = some l
  | [], _ => rfl
  | [b1], h => by
    have hb1 : b1 < 256 := h b1 (by simp)
    have e1 := base64DecodeChar_base64Char (b1 / 4) (by omega)
    have e2 := base64DecodeChar_base64Char (b1 % 4 * 16) (by omega)
    simp [base64EncodeChars, base64DecodeGroups, e1, e2, Nat.mul_mod_left]
    omega
  | [b1, b2], h => by
    have hb1 : b1 < 256 := h b1 (by simp)
    have hb2 : b2 < 256 := h b2 (by simp)
    have e1 := base64DecodeChar_base64Char (b1 / 4) (by omega)
    have e2 := base64DecodeChar_base64Char (b1 % 4 * 16 + b2 / 16) (by omega)
    have e3 := base64DecodeChar_base64Char (b2 % 16 * 4) (by omega)
    have n3 := base64Char_ne_pad (b2 % 16 * 4) (by omega)
    simp [base64EncodeChars, base64DecodeGroups, e1, e2, e3, n3, Nat.mul_mod_left]
    omega
  | b1 :: b2 :: b3 :: rest, h => by
    have hb1 : b1 < 256 := h b1 (by simp)
    have hb2 : b2 < 256 := h b2 (by simp)
    have hb3 : b3 < 256 := h b3 (by simp)
    have ih := base64DecodeGroups_encode rest fun b hb => h b (by simp [hb])
    have e1 := base64DecodeChar_base64Char (b1 / 4) (by omega)
    have e2 := base64DecodeChar_base64Char (b1 % 4 * 16 + b2 / 16) (by omega)
    have e3 := base64DecodeChar_base64Char (b2 % 16 * 4 + b3 / 64) (by omega)
    have e4 := base64DecodeChar_base64Char (b3 % 64) (by omega)
    have n3 := base64Char_ne_pad (b2 % 16 * 4 + b3 / 64) (by omega)
    have n4 := base64Char_ne_pad (b3 % 64) (by omega)
    simp [base64EncodeChars, base64DecodeGroups, e1, e2, e3, e4, n3, n4, ih]
    omega

theorem base64Decode_encode (l : List Nat) (h : ∀ b ∈ l, b < 256) :
    base64Decode (base64Encode l) = some l :=
  base64DecodeGroups_encode l h

theorem base64EncodeChars_no_dollar : ∀ (l : List Nat), (∀ b ∈ l, b < 256) →
    '$' ∉ base64EncodeChars l
  | [], _ => by simp [base64EncodeChars]
  | [b1], h => by
    have hb1 : b1 < 256 := h b1 (by simp)
    have d1 := Ne.symm (base64Char_ne_dollar (b1 / 4) (by omega))
    have d2 := Ne.symm (base64Char_ne_dollar (b1 % 4 * 16) (by omega))
    simp [base64EncodeChars, d1, d2]
  | [b1, b2], h => by
    have hb1 : b1 < 256 := h b1 (by simp)
    have hb2 : b2 < 256 := h b2 (by simp)
    have d1 := Ne.symm (base64Char_ne_dollar (b1 / 4) (by omega))
    have d2 := Ne.symm (base64Char_ne_dollar (b1 % 4 * 16 + b2 / 16) (by omega))
    have d3 := Ne.symm (base64Char_ne_dollar (b2 % 16 * 4) (by omega))
    simp [base64EncodeChars, d1, d2, d3]
  | b1 :: b2 :: b3 :: rest, h => by
    have hb1 : b1 < 256 := h b1 (by simp)
    have hb2 : b2 < 256 := h b2 (by simp)
    have hb3 : b3 < 256 := h b3 (by simp)
    have ih := base64EncodeChars_no_dollar rest fun b hb => h b (by simp [hb])
    have d1 := Ne.symm (base64Char_ne_dollar (b1 / 4) (by omega))
    have d2 := Ne.symm (base64Char_ne_dollar (b1 % 4 * 16 + b2 / 16) (by omega))
    have d3 := Ne.symm (base64Char_ne_dollar (b2 % 16 * 4 + b3 / 64) (by omega))
    have d4 := Ne.symm (base64Char_ne_dollar (b3 % 64) (by omega))
    simp [base64EncodeChars, d1, d2, d3, d4, ih]

theorem base64Encode_no_dollar (l : List Nat) (h : ∀ b ∈ l, b < 256) :
    '$' ∉ (base64Encode l).data :=
  base64EncodeChars_no_dollar l h

theorem splitDollarChars_ne_nil : ∀ (l : List Char), splitDollarChars l ≠ []
  | [] => by simp [splitDollarChars]
  | c :: rest => by
    by_cases hc : c = '$' <;> simp only [splitDollarChars, hc] <;> simp <;>
      split <;> simp

theorem splitDollarChars_no_dollar : ∀ (l : List Char), '$' ∉ l →
    splitDollarChars l = [l]
  | [], _ => rfl
  | c :: rest, h => by
    have hc : c ≠ '$' := fun he => h (by simp [he])
    have ih := splitDollarChars_no_dollar rest fun hr => h (by simp [hr])
    simp [splitDollarChars, hc, ih]

theorem splitDollarChars_append : ∀ (l r : List Char), '$' ∉ l →
    splitDollarChars (l ++ '$' :: r) = l :: splitDollarChars r
  | [], r, _ => by simp [splitDollarChars]
  | c :: rest, r, h => by
    have hc : c ≠ '$' := fun he => h (by simp [he])
    have ih := splitDollarChars_append rest r fun hr => h (by simp [hr])
    simp [splitDollarChars, hc, ih]

theorem splitDollar_format (mech it b1 b2 b3 : String)
    (hm : '$' ∉ mech.data) (hi : '$' ∉ it.data) (h1 : '$' ∉ b1.data)
    (h2 : '$' ∉ b2.data) (h3 : '$' ∉ b3.data) :
    splitDollar ("$" ++ mech ++ "$" ++ it ++ "$" ++ b1 ++ "$" ++ b2 ++ "$" ++ b3) =
      ["", mech, it, b1, b2, b3] := by
  have hdata : ("$" ++ mech ++ "$" ++ it ++ "$" ++ b1 ++ "$" ++ b2 ++ "$" ++ b3).data =
      '$' :: (mech.data ++ '$' :: (it.data ++ '$' :: (b1.data ++ '$' ::
        (b2.data ++ '$' :: b3.data)))) := by
    simp [String.data_append]
  unfold splitDollar
  rw [hdata]
  have hhead : splitDollarChars ('$' :: (mech.data ++ '$' :: (it.data ++ '$' ::
      (b1.data ++ '$' :: (b2.data ++ '$' :: b3.data))))) =
      [] :: splitDollarChars (mech.data ++ '$' :: (it.data ++ '$' ::
        (b1.data ++ '$' :: (b2.data ++ '$' :: b3.data)))) := by
    simp [splitDollarChars]
  rw [hhead, splitDollarChars_append _ _ hm, splitDollarChars_append _ _ hi,
    splitDollarChars_append _ _ h1, splitDollarChars_append _ _ h2,
    splitDollarChars_no_dollar _ h3]
  rfl

theorem scramParseParts_bad_length : ∀ (parts : List String), parts.length ≠ 6 →
    scramParseParts parts = .error "Invalid SCRAM password format."
  | [], _ => rfl
  | [_], _ => rfl
  | [_, _], _ => rfl
  | [_, _, _], _ => rfl
  | [_, _, _, _], _ => rfl
  | [_, _, _, _, _], _ => rfl
  | [_, _, _, _, _, _], h => by simp at h
  | _ :: _ :: _ :: _ :: _ :: _ :: _ :: _, _ => rfl

theorem scramParseParts_ok_iterations (parts : List String) (e : StoredPasswordScram)
    (h : scramParseParts parts = .ok e) : e.iterations = SCRAM_ITERATIONS := by
  unfold scramParseParts at h
  split at h
  case h_2 => simp at h
  case h_1 p2 p3 p4 p5 =>
    cases hp : parseNonZeroU32 p2 with
    | none => simp only [hp] at h; exact absurd h (by simp)
    | some iters =>
      cases h3 : base64Decode p3 with
      | none => simp only [hp, h3] at h; exact absurd h (by simp)
      | some salt =>
        cases h4 : base64Decode p4 with
        | none => simp only [hp, h3, h4] at h; exact absurd h (by simp)
        | some stored =>
          cases h5 : base64Decode p5 with
          | none => simp only [hp, h3, h4, h5] at h; exact absurd h (by simp)
          | some server =>
            simp only [hp, h3, h4, h5] at h
            by_cases hit : iters ≠ SCRAM_ITERATIONS
            · rw [if_pos hit] at h
              simp at h
            · rw [if_neg hit] at h
              push_neg at hit
              simp only [Except.ok.injEq] at h
              subst h
              exact hit

theorem scramParseParts_format (mech : String) (salt stored server : List Nat)
    (hs : ∀ b ∈ salt, b < 256) (hk : ∀ b ∈ stored, b < 256)
    (hv : ∀ b ∈ server, b < 256) :
    scramParseParts ["", mech, "4096", base64Encode salt, base64Encode stored,
      base64Encode server] = .ok ⟨4096, salt, stored, server⟩ := by
  have h2 : parseNonZeroU32 "4096" = some 4096 := rfl
  simp only [scramParseParts, h2, base64Decode_encode salt hs,
    base64Decode_encode stored hk, base64Decode_encode server hv]
  rfl

theorem sasl_loop_failure_cons (msg : String)
    (results : List MechanismNegotiatorResult) (frames : List Frame) :
    sasl_negotiate_loop (.failure msg :: results) (responseFrame :: frames) =
      ((failureNotAuthorizedElement :: (sasl_negotiate_loop results frames).1),
        (sasl_negotiate_loop results frames).2) := rfl

/-! ## Claim theorems -/

/-- C1: the claim says `StarttlsNegotiator::negotiate_feature` writes
`<proceed/>` and upgrades exactly for `{urn:ietf:params:xml:ns:xmpp-tls}starttls`
elements and errors on all others.  The guard in starttls.rs line 29 is
inverted (`if element.validate(...) { bail!("expected starttls element") }`, the
negation is missing), so the code does the opposite: a well-formed starttls
element is rejected with the very error message claiming one was expected,
while any non-starttls fragment gets `<proceed/>` and the TLS upgrade. -/
theorem starttls_negotiate_rejects_starttls_element :
    starttls_negotiate_feature peerStarttlsElement =
      ([], false, .error "expected starttls element") ∧
    starttls_negotiate_feature nonStarttlsElement =
      ([starttlsProceedElement], true, .ok ()) :=
  ⟨rfl, rfl⟩

/-- C2: the claim says "SCRAM-SHA-1" and "SCRAM-SHA-256" resolve to their
mechanisms and other names fail with a returned invalid-mechanism error.  In
the code `TryFrom` has no "SCRAM-SHA-256" arm, so that name (like every
unknown name) yields `Err(UnsupportedMechanism)`, and
`negotiate_feature` calls `.unwrap()` on that result (sasl.rs line 100),
which panics instead of returning a failure. -/
theorem sasl_mechanism_resolution_diverges :
    mechanismTryFrom "SCRAM-SHA-1" = .ok .scramSha1 ∧
    mechanismTryFrom "SCRAM-SHA-256" =
      .error (.unsupportedMechanism "SCRAM-SHA-256") ∧
    resolve_mechanism (authElementWithMechanism "SCRAM-SHA-1") =
      .resolved .scramSha1 ∧
    resolve_mechanism (authElementWithMechanism "SCRAM-SHA-256") = .panicked ∧
    resolve_mechanism (authElementWithMechanism "GSSAPI") = .panicked :=
  ⟨rfl, rfl, rfl, rfl, rfl⟩

/-- C3: the claim says a `{jabber:client}iq` of type `set` with an id and a
bind child gets the `<iq type="result">` reply, and non-iq elements are
rejected.  The guard in bind.rs line 33 is inverted (the negation is
missing), so a well-formed bind request is rejected with "expected IQ
stanza" while an element that is not an iq at all — here named `foo` with no
namespace — passes the guard and is answered. -/
theorem bind_negotiate_rejects_valid_iq :
    bind_negotiate_feature validBindIq (some exampleUser) "generated-resource" =
      .error "expected IQ stanza" ∧
    bind_negotiate_feature nonIqBindRequest (some exampleUser) "generated-resource" =
      .ok (bindResponseElement "bind-1" (exampleUser.bind "generated-resource"),
        exampleUser.bind "generated-resource") :=
  ⟨rfl, rfl⟩

/-- C4 counterexample: the claim says the `-PLUS` variants are available if
and only if `secure` holds, but `mechanism_available` reports both `-PLUS`
variants available on an insecure, unauthenticated channel. -/
theorem plus_mechanisms_available_without_tls :
    mechanism_available .scramSha1Plus false false = true ∧
    mechanism_available .scramSha256Plus false false = true :=
  ⟨rfl, rfl⟩

/-- C4 amended: EXTERNAL is available iff `secure && authenticated`, PLAIN
iff `secure`, and SCRAM-SHA-1, SCRAM-SHA-256 and both `-PLUS` variants are
always available (the `-PLUS` variants do not require `secure`). -/
theorem mechanism_availability_matrix (s a : Bool) :
    mechanism_available .external s a = (s && a) ∧
    mechanism_available .plain s a = s ∧
    mechanism_available .scramSha1 s a = true ∧
    mechanism_available .scramSha256 s a = true ∧
    mechanism_available .scramSha1Plus s a = true ∧
    mechanism_available .scramSha256Plus s a = true := by
  cases s <;> cases a <;> exact ⟨rfl, rfl, rfl, rfl, rfl, rfl⟩

/-- C5 counterexample: after a challenge, an
`{urn:ietf:params:xml:ns:xmpp-sasl}abort` makes the loop bail with
"authentication aborted" having written only the `<challenge>` element — no
`<failure><aborted/></failure>` is written (the only write has name
`challenge`); and three consecutive mechanism failures do not terminate the
stream: the loop keeps going and a fourth round still succeeds. -/
theorem sasl_loop_abort_and_failures_concrete :
    sasl_negotiate_loop [.challenge []] [Frame.xmlFragment abortElement] =
      ([challengeElement []], .fail "authentication aborted") ∧
    (challengeElement []).name = "challenge" ∧
    sasl_negotiate_loop
        [.failure "bad proof", .failure "bad proof", .failure "bad proof",
          .success exampleUser none]
        [responseFrame, responseFrame, responseFrame] =
      ([failureNotAuthorizedElement, failureNotAuthorizedElement,
        failureNotAuthorizedElement, successElement none], .ok exampleUser) :=
  ⟨rfl, rfl, rfl⟩

/-- C5 amended: a mechanism `Failure` result causes
`<failure><not-authorized/></failure>` to be written and the loop to
continue awaiting the next `<response>`, with no bound on the number of
consecutive failures (no three-failure budget exists); and an
`{urn:ietf:params:xml:ns:xmpp-sasl}abort` element makes the driver fail the
negotiation with "authentication aborted" without writing any further
element — in particular no `<failure><aborted/></failure>`. -/
theorem sasl_loop_failure_retry_and_abort (n : Nat) (msg : String)
    (challenge : List Nat) (results : List MechanismNegotiatorResult)
    (frames : List Frame) :
    sasl_negotiate_loop (List.replicate n (.failure msg) ++ results)
        (List.replicate n responseFrame ++ frames) =
      (List.replicate n failureNotAuthorizedElement ++
        (sasl_negotiate_loop results frames).1,
        (sasl_negotiate_loop results frames).2) ∧
    sasl_negotiate_loop (.failure msg :: results)
        (Frame.xmlFragment abortElement :: frames) =
      ([failureNotAuthorizedElement], .fail "authentication aborted") ∧
    sasl_negotiate_loop (.challenge challenge :: results)
        (Frame.xmlFragment abortElement :: frames) =
      ([challengeElement challenge], .fail "authentication aborted") := by
  refine ⟨?_, rfl, rfl⟩
  induction n with
  | zero => simp
  | succ n ih =>
    rw [List.replicate_succ, List.replicate_succ, List.cons_append,
      List.cons_append, sasl_loop_failure_cons, ih, List.replicate_succ,
      List.cons_append]

/-- C6 counterexample: a stored entry whose mechanism-name field says
SCRAM-SHA-256 parses successfully as a `StoredPasswordScram<Sha1>` — the
claim says such a mismatch must be rejected, but `from_str` never inspects
the mechanism-name field. -/
theorem scram_parse_accepts_mismatched_mechanism :
    storedPasswordScramFromStr ScramDigest.sha1
        "$SCRAM-SHA-256$4096$QUJD$REVG$SElK" =
      .ok ⟨4096, [65, 66, 67], [68, 69, 70], [72, 73, 74]⟩ :=
  rfl

/-- C6 amended: parsing fails when the number of `$`-separated fields is
not six and succeeds only with iteration count 4096, but the mechanism-name
field is never checked against the requested digest: the result is
identical for both digests, and a well-formed string with an arbitrary
mechanism-name field and iteration count 4096 parses successfully. -/
theorem scram_parse_characterisation (D E : ScramDigest) (s : String)
    (mech : String) (salt stored server : List Nat)
    (hm : '$' ∉ mech.data)
    (hs : ∀ b ∈ salt, b < 256) (hk : ∀ b ∈ stored, b < 256)
    (hv : ∀ b ∈ server, b < 256) :
    storedPasswordScramFromStr D s = storedPasswordScramFromStr E s ∧
    ((splitDollar s).length ≠ 6 →
      storedPasswordScramFromStr D s = .error "Invalid SCRAM password format.") ∧
    (∀ e, storedPasswordScramFromStr D s = .ok e →
      e.iterations = SCRAM_ITERATIONS) ∧
    storedPasswordScramFromStr D
        ("$" ++ mech ++ "$" ++ "4096" ++ "$" ++ base64Encode salt ++ "$" ++
          base64Encode stored ++ "$" ++ base64Encode server) =
      .ok ⟨4096, salt, stored, server⟩ := by
  refine ⟨rfl, ?_, ?_, ?_⟩
  · exact fun h => scramParseParts_bad_length _ h
  · exact fun e h => scramParseParts_ok_iterations _ e h
  · unfold storedPasswordScramFromStr
    rw [splitDollar_format mech "4096" _ _ _ hm (by decide)
      (base64Encode_no_dollar salt hs) (base64Encode_no_dollar stored hk)
      (base64Encode_no_dollar server hv)]
    exact scramParseParts_format mech salt stored server hs hk hv

/-- Witness for the amended C6 theorem at concrete inputs. -/
theorem scram_parse_characterisation_witness :
    storedPasswordScramFromStr ScramDigest.sha1 "x" =
      storedPasswordScramFromStr ScramDigest.sha256 "x" ∧
    ((splitDollar "x").length ≠ 6 →
      storedPasswordScramFromStr ScramDigest.sha1 "x" =
        .error "Invalid SCRAM password format.") ∧
    (∀ e, storedPasswordScramFromStr ScramDigest.sha1 "x" = .ok e →
      e.iterations = SCRAM_ITERATIONS) ∧
    storedPasswordScramFromStr ScramDigest.sha1
        ("$" ++ "SCRAM-SHA-256" ++ "$" ++ "4096" ++ "$" ++
          base64Encode [1, 2, 3] ++ "$" ++ base64Encode [4, 5] ++ "$" ++
          base64Encode [6]) =
      .ok ⟨4096, [1, 2, 3], [4, 5], [6]⟩ :=
  scram_parse_characterisation ScramDigest.sha1 ScramDigest.sha256 "x"
    "SCRAM-SHA-256" [1, 2, 3] [4, 5] [6] (by decide) (by decide) (by decide)
    (by decide)

/-- C7: for every stored SCRAM entry with iterations 4096 (under either
digest), parsing the formatted textual form yields the entry back,
component-wise: `parse(format(e)) = e`. -/
theorem scram_stored_password_roundtrip (D : ScramDigest) (e : StoredPasswordScram)
    (hit : e.iterations = 4096)
    (hs : ∀ b ∈ e.salt, b < 256) (hk : ∀ b ∈ e.stored_key, b < 256)
    (hv : ∀ b ∈ e.server_key, b < 256) :
    storedPasswordScramFromStr D (storedPasswordScramDisplay D e) = .ok e := by
  obtain ⟨it, salt, stored, server⟩ := e
  simp only at hit hs hk hv
  subst hit
  have hm : '$' ∉ (mechanism_name D false).data := by cases D <;> decide
  have h46 : toString (4096 : Nat) = "4096" := rfl
  unfold storedPasswordScramFromStr storedPasswordScramDisplay
  simp only [h46]
  rw [splitDollar_format (mechanism_name D false) "4096" _ _ _ hm (by decide)
    (base64Encode_no_dollar salt hs) (base64Encode_no_dollar stored hk)
    (base64Encode_no_dollar server hv)]
  exact scramParseParts_format (mechanism_name D false) salt stored server hs hk hv

/-- Witness for C7 at a concrete entry. -/
theorem scram_stored_password_roundtrip_witness :
    storedPasswordScramFromStr ScramDigest.sha256
        (storedPasswordScramDisplay ScramDigest.sha256
          ⟨4096, [1, 2, 3], [4, 5, 6], [7, 8]⟩) =
      .ok ⟨4096, [1, 2, 3], [4, 5, 6], [7, 8]⟩ :=
  scram_stored_password_roundtrip ScramDigest.sha256
    ⟨4096, [1, 2, 3], [4, 5, 6], [7, 8]⟩ rfl (by decide) (by decide) (by decide)

/-- C8: the set of negotiable features is the pure function
`negotiable_features` of `(starttls_allowed, tls_required, negotiated,
connection_type)`, and membership is exactly as claimed: `Tls` iff starttls
is allowed and Tls not negotiated; `Authentication` iff (Tls negotiated or
TLS not required) and Authentication not negotiated; `ResourceBinding` iff
the connection is a client one, Authentication is negotiated and
ResourceBinding is not. -/
theorem negotiable_features_characterisation (sa tr : Bool)
    (fs : List StreamFeatures) (ct : Option ConnectionType) :
    (StreamFeatures.tls ∈ negotiable_features sa tr fs ct ↔
      sa = true ∧ StreamFeatures.tls ∉ fs) ∧
    (StreamFeatures.authentication ∈ negotiable_features sa tr fs ct ↔
      ((StreamFeatures.tls ∈ fs ∨ tr = false) ∧
        StreamFeatures.authentication ∉ fs)) ∧
    (StreamFeatures.resourceBinding ∈ negotiable_features sa tr fs ct ↔
      (ct = some ConnectionType.client ∧ StreamFeatures.authentication ∈ fs ∧
        StreamFeatures.resourceBinding ∉ fs)) := by
  by_cases h1 : StreamFeatures.tls ∈ fs <;>
  by_cases h2 : StreamFeatures.authentication ∈ fs <;>
  by_cases h3 : StreamFeatures.resourceBinding ∈ fs <;>
  by_cases h4 : ct = some ConnectionType.client <;>
  cases sa <;> cases tr <;>
    simp_all [negotiable_features, List.contains, List.elem_iff, beq_iff_eq]

/-- C9: serializing an element whose namespace resolves to no prefix on the
active stack hits only a `debug_assert!`; in release builds nothing is
appended for the tag name, so the writer emits exactly the serialization
with the element's tag name omitted (`"/>"`), silently — the claim says this
must not happen.  The second conjunct shows the same element with its
namespace declared, for contrast. -/
theorem writer_omits_undeclared_namespace_tag :
    (build_xml_element initialNamespaces undeclaredNsElement).1 = "/>" ∧
    (build_xml_element initialNamespaces declaredNsElement).1 =
      "<features xmlns=\"urn:example:undeclared\"/>" :=
  ⟨rfl, rfl⟩

/-- C10: `write_stream_header` ignores the `id` and `to` fields of the
header it is given — the result is identical whatever they are — and the
emitted element carries as `id` the base64 encoding of the 16 freshly drawn
random bytes, has no `to` attribute at all, and the call fails only when
`from` is unset. -/
theorem write_stream_header_ignores_id_and_to (f : Jid) (to1 to2 : Option Jid)
    (id1 id2 lang1 lang2 : Option String) (r : List Nat) :
    write_stream_header ⟨some f, to1, id1, lang1⟩ r =
      write_stream_header ⟨some f, to2, id2, lang2⟩ r ∧
    write_stream_header ⟨some f, to1, id1, lang1⟩ r =
      .ok (streamHeaderElement f r) ∧
    (streamHeaderElement f r).getAttribute "id" none = some (base64Encode r) ∧
    (streamHeaderElement f r).getAttribute "to" none = none ∧
    ((streamHeaderElement f r).attributes.all fun kv => !(kv.1.1 == "to")) = true ∧
    write_stream_header ⟨none, to1, id1, lang1⟩ r =
      .error "`from` field is required in outgoing stream header" :=
  ⟨rfl, rfl, rfl, rfl, rfl, rfl⟩
